import Mathlib

/-!
# Verification of `boomerang.py`

A shallow embedding of the core of `src/boomerang.py` (`create_boomerang`):
parameter validation, the ffmpeg filter-graph (media plan) construction for
video and audio, and the hardware-encoder resolution policy.  Times, speeds
and fade durations (Python floats in the source) are modelled as rationals;
`crf` (a Python int) as an integer.  The probe of `nvidia-smi` is modelled
by a probe-outcome value; raising/absorbing of probe exceptions is modelled
with `Except`.
-/

namespace Boomerang

/-- The numeric/boolean parameters of `create_boomerang` that the core logic
reads (the file paths and `quiet` flag are I/O glue, out of scope). -/
structure BoomerangRequest where
  startTime : ℚ
  duration : ℚ
  speed : ℚ
  crf : ℤ
  preset : String
  fadeDuration : ℚ
  includeAudio : Bool
  useGpu : Bool
deriving DecidableEq, Repr

/-- The six `ValueError`s raised by the validation block of
`create_boomerang` (src/boomerang.py lines 48-59), one per check. -/
inductive ValidationError where
  | negativeStartTime
  | nonPositiveDuration
  | nonPositiveSpeed
  | negativeFadeDuration
  | fadeExceedsDuration
  | crfOutOfRange
deriving DecidableEq, Repr

/-- The validation block of `create_boomerang` (src/boomerang.py lines
48-59): sequential checks, raising (here: returning `.error`) at the first
violated one, in source order. -/
def validate (r : BoomerangRequest) : Except ValidationError BoomerangRequest :=
  if r.startTime < 0 then .error .negativeStartTime
  else if r.duration ≤ 0 then .error .nonPositiveDuration
  else if r.speed ≤ 0 then .error .nonPositiveSpeed
  else if r.fadeDuration < 0 then .error .negativeFadeDuration
  else if r.fadeDuration ≥ r.duration then .error .fadeExceedsDuration
  else if r.crf < 0 ∨ r.crf > 51 then .error .crfOutOfRange
  else .ok r

/-- Spec-side definition (from the check list of spec §4.1, stated in the
spec's own positive form): the error of the first violated check, in the
order NegativeStartTime, NonPositiveDuration, NonPositiveSpeed,
NegativeFadeDuration, FadeExceedsDuration, CrfOutOfRange; `none` when all
checks pass.  Compared against `validate` for the refinement claim. -/
def firstViolatedCheck (r : BoomerangRequest) : Option ValidationError :=
  if ¬ (0 ≤ r.startTime) then some .negativeStartTime
  else if ¬ (0 < r.duration) then some .nonPositiveDuration
  else if ¬ (0 < r.speed) then some .nonPositiveSpeed
  else if ¬ (0 ≤ r.fadeDuration) then some .negativeFadeDuration
  else if ¬ (r.fadeDuration < r.duration) then some .fadeExceedsDuration
  else if ¬ (0 ≤ r.crf ∧ r.crf ≤ 51) then some .crfOutOfRange
  else none

/-! ## Filter-graph (media plan) construction -/

/-- A node of the ffmpeg filter graph built by `create_boomerang`.  Each
constructor corresponds to one stream-building call of the source:
`ffmpeg.input(file, ss, t)` (`input`), the `.video`/`.audio` stream
selectors, `filter('reverse')`/`filter('areverse')`, `ffmpeg.concat` with
its `v`/`a` stream counts, the `xfade` filter with its `transition`,
`duration` and `offset` arguments, `filter('setpts', factor*PTS)` and
`filter('atempo', factor)`. -/
inductive Node where
  | input (start dur : ℚ)
  | videoOf (src : Node)
  | audioOf (src : Node)
  | reverse (src : Node)
  | areverse (src : Node)
  | concat (v a : ℕ) (fst snd : Node)
  | crossfade (transition : String) (dur offset : ℚ) (fst snd : Node)
  | setpts (factor : ℚ) (src : Node)
  | atempo (factor : ℚ) (src : Node)
deriving DecidableEq, Repr

/-- `input_stream = ffmpeg.input(input_file, ss=start_time, t=duration)`
(src/boomerang.py line 80): the single trimmed source. -/
def inputStream (r : BoomerangRequest) : Node :=
  .input r.startTime r.duration

/-- `forward_video = input_stream.video` (src/boomerang.py lines 81, 84). -/
def forwardVideo (r : BoomerangRequest) : Node :=
  .videoOf (inputStream r)

/-- `reverse_video = video_stream.filter('reverse')` (line 85). -/
def reverseVideo (r : BoomerangRequest) : Node :=
  .reverse (forwardVideo r)

/-- The loop-join of the video branches (src/boomerang.py lines 91-100):
`xfade` when `fade_duration > 0 and duration > fade_duration`, plain
`ffmpeg.concat` (defaults `v=1, a=0`) otherwise. -/
def joinedVideo (r : BoomerangRequest) : Node :=
  if r.fadeDuration > 0 ∧ r.duration > r.fadeDuration then
    .crossfade "fade" r.fadeDuration (r.duration - r.fadeDuration)
      (forwardVideo r) (reverseVideo r)
  else
    .concat 1 0 (forwardVideo r) (reverseVideo r)

/-- The complete video chain: the join followed by
`filter('setpts', f(1/speed)*PTS)` (src/boomerang.py line 103). -/
def finalVideo (r : BoomerangRequest) : Node :=
  .setpts (1 / r.speed) (joinedVideo r)

/-- `forward_audio = input_stream.audio` (src/boomerang.py lines 118-119). -/
def forwardAudio (r : BoomerangRequest) : Node :=
  .audioOf (inputStream r)

/-- `reverse_audio = audio_stream.filter('areverse')` (line 120). -/
def reverseAudio (r : BoomerangRequest) : Node :=
  .areverse (forwardAudio r)

/-- `final_audio = ffmpeg.concat(forward_audio, reverse_audio, v=0, a=1)`
(src/boomerang.py line 122): the audio loop-join, unconditionally a
concat. -/
def joinedAudio (r : BoomerangRequest) : Node :=
  .concat 0 1 (forwardAudio r) (reverseAudio r)

/-- The complete audio chain (src/boomerang.py lines 122-131): the concat
join, then `filter('atempo', speed)` exactly when `speed != 1.0`. -/
def finalAudio (r : BoomerangRequest) : Node :=
  if r.speed ≠ 1 then .atempo r.speed (joinedAudio r) else joinedAudio r

/-- The declarative plan handed to `ffmpeg.output`: the video chain, the
optional audio chain, whether `"an"` (discard audio) is set, and the
output keyword arguments `preset`, `crf`, `pix_fmt`, `vcodec`
(src/boomerang.py lines 106-139, 181-190). -/
structure MediaPlan where
  video : Node
  audio : Option Node
  discardAudio : Bool
  vcodec : String
  crf : ℤ
  preset : String
  pixFmt : String
deriving DecidableEq, Repr

/-- Plan construction for an already-validated request and an
already-resolved codec: video chain always, audio chain exactly when
`include_audio`, else the `an` flag; `pix_fmt` fixed to `yuv420p`
(src/boomerang.py lines 78-139, 181-190). -/
def buildPlan (r : BoomerangRequest) (vcodec : String) : MediaPlan :=
  { video := finalVideo r
    audio := if r.includeAudio then some (finalAudio r) else none
    discardAudio := !r.includeAudio
    vcodec := vcodec
    crf := r.crf
    preset := r.preset
    pixFmt := "yuv420p" }

/-- Does a node's graph contain a crossfade (`xfade`) node? -/
def containsCrossfade : Node → Bool
  | .input _ _ => false
  | .videoOf s => containsCrossfade s
  | .audioOf s => containsCrossfade s
  | .reverse s => containsCrossfade s
  | .areverse s => containsCrossfade s
  | .concat _ _ f s => containsCrossfade f || containsCrossfade s
  | .crossfade _ _ _ _ _ => true
  | .setpts _ s => containsCrossfade s
  | .atempo _ s => containsCrossfade s

/-- Does a node's graph contain a `setpts` (speed-change) node? -/
def containsSetpts : Node → Bool
  | .input _ _ => false
  | .videoOf s => containsSetpts s
  | .audioOf s => containsSetpts s
  | .reverse s => containsSetpts s
  | .areverse s => containsSetpts s
  | .concat _ _ f s => containsSetpts f || containsSetpts s
  | .crossfade _ _ _ f s => containsSetpts f || containsSetpts s
  | .setpts _ _ => true
  | .atempo _ s => containsSetpts s

/-- Number of `atempo` nodes in a node's graph. -/
def countAtempo : Node → ℕ
  | .input _ _ => 0
  | .videoOf s => countAtempo s
  | .audioOf s => countAtempo s
  | .reverse s => countAtempo s
  | .areverse s => countAtempo s
  | .concat _ _ f s => countAtempo f + countAtempo s
  | .crossfade _ _ _ f s => countAtempo f + countAtempo s
  | .setpts _ s => countAtempo s
  | .atempo _ s => countAtempo s + 1

/-! ## Encoder resolution -/

/-- The value of `platform.system()` as branched on by `create_boomerang`
(src/boomerang.py lines 144-180): `"Darwin"`, `"Windows"`, `"Linux"`, or
anything else. -/
inductive OsKind where
  | darwin
  | windows
  | linux
  | other
deriving DecidableEq, Repr

/-- The keys of the `HW_ACCEL_CODECS` dictionary (src/boomerang.py lines
12-16). -/
inductive GpuVendor where
  | nvidia
  | apple
  | intel
deriving DecidableEq, Repr

/-- The `HW_ACCEL_CODECS` dictionary (src/boomerang.py lines 12-16). -/
def HW_ACCEL_CODECS : GpuVendor → String
  | .nvidia => "h264_nvenc"
  | .apple => "h264_videotoolbox"
  | .intel => "h264_qsv"

/-- Outcome of the `subprocess.run(['nvidia-smi'], ..., timeout=5)` call:
either the process ran and returned an exit code, or the binary was not
found (`FileNotFoundError`), or the 5-second timeout expired
(`subprocess.TimeoutExpired`). -/
inductive ProbeOutcome where
  | ran (returncode : ℤ)
  | fileNotFound
  | timedOut
deriving DecidableEq, Repr

/-- The exceptions the probe call can raise, i.e. the failure modes caught
by the `except (FileNotFoundError, subprocess.TimeoutExpired)` clauses
(src/boomerang.py lines 162, 177). -/
inductive ProbeError where
  | fileNotFound
  | timedOut
deriving DecidableEq, Repr

/-- Running the probe: a completed run yields its exit code; the other
outcomes raise (return `.error`). -/
def runProbe : ProbeOutcome → Except ProbeError ℤ
  | .ran rc => .ok rc
  | .fileNotFound => .error .fileNotFound
  | .timedOut => .error .timedOut

/-- The resolved encoder: the `vcodec` value placed in `kwargs`, whether it
came from the `HW_ACCEL_CODECS` hardware table, and the diagnostic line
printed alongside the choice (src/boomerang.py lines 141-187). -/
structure EncoderChoice where
  codecId : String
  isHardwareAccelerated : Bool
  rationale : String
deriving DecidableEq, Repr

/-- The hardware-acceleration logic of `create_boomerang` (src/boomerang.py
lines 141-187), as a function of the `use_gpu` flag, the OS, and the probe
outcome.  Returns the chosen encoder together with the number of times the
GPU probe was invoked (the `subprocess.run` call sites at lines 154 and
169).  `use_gpu=false` skips the whole block and sets `vcodec="libx264"`
(line 187); Darwin takes the `apple` codec without probing; Windows and
Linux probe once, take the `nvidia` codec on exit code 0, and otherwise —
non-zero exit, missing binary, or timeout — fall back to the `intel`
codec; any other OS leaves `codec_to_use` unset and falls back to
`libx264` with a warning (lines 183-185). -/
def resolveEncoder (useGpu : Bool) (os : OsKind) (probe : ProbeOutcome) :
    EncoderChoice × ℕ :=
  if useGpu then
    match os with
    | .darwin =>
      (⟨HW_ACCEL_CODECS .apple, true,
        "Detected macOS, attempting to use VideoToolbox."⟩, 0)
    | .windows =>
      match runProbe probe with
      | .ok rc =>
        if rc = 0 then
          (⟨HW_ACCEL_CODECS .nvidia, true, "Detected NVIDIA GPU, using NVENC."⟩, 1)
        else
          (⟨HW_ACCEL_CODECS .intel, true,
            "No NVIDIA GPU detected, attempting Intel QSV."⟩, 1)
      | .error _ =>
        (⟨HW_ACCEL_CODECS .intel, true,
          "Could not detect GPU, attempting Intel QSV."⟩, 1)
    | .linux =>
      match runProbe probe with
      | .ok rc =>
        if rc = 0 then
          (⟨HW_ACCEL_CODECS .nvidia, true, "Detected NVIDIA GPU, using NVENC."⟩, 1)
        else
          (⟨HW_ACCEL_CODECS .intel, true,
            "No NVIDIA GPU detected, attempting Intel QSV."⟩, 1)
      | .error _ =>
        (⟨HW_ACCEL_CODECS .intel, true,
          "Could not detect GPU, attempting Intel QSV."⟩, 1)
    | .other =>
      (⟨"libx264", false,
        "Warning: Could not determine a suitable GPU encoder, falling back to CPU."⟩, 0)
  else
    (⟨"libx264", false, ""⟩, 0)

/-! ## Helper lemmas -/

/-- `validate` accepts (returning the request unchanged) exactly when all
six checks pass. -/
theorem validate_ok_iff (r : BoomerangRequest) :
    validate r = .ok r ↔
      0 ≤ r.startTime ∧ 0 < r.duration ∧ 0 < r.speed ∧ 0 ≤ r.fadeDuration ∧
        r.fadeDuration < r.duration ∧ 0 ≤ r.crf ∧ r.crf ≤ 51 := by
  constructor
  · intro h
    unfold validate at h
    split_ifs at h with h1 h2 h3 h4 h5 h6
    all_goals try simp at h
    push_neg at h1 h2 h3 h4 h5 h6
    exact ⟨h1, h2, h3, h4, h5, h6.1, h6.2⟩
  · rintro ⟨h1, h2, h3, h4, h5, h6, h7⟩
    unfold validate
    rw [if_neg (not_lt.mpr h1), if_neg (not_le.mpr h2), if_neg (not_le.mpr h3),
      if_neg (not_lt.mpr h4), if_neg (not_le.mpr h5), if_neg (by omega)]

/-! ## Claims -/

/-- C2: `validate` succeeds — returning the request unchanged — iff
`startTime ≥ 0`, `duration > 0`, `speed > 0`, `fadeDuration ≥ 0`,
`fadeDuration < duration` and `0 ≤ crf ≤ 51` all hold (so the crf boundary
values 0 and 51 are accepted); otherwise it fails with the error of the
first violated check in the order NegativeStartTime, NonPositiveDuration,
NonPositiveSpeed, NegativeFadeDuration, FadeExceedsDuration,
CrfOutOfRange, as computed by the spec-side `firstViolatedCheck`. -/
theorem validate_iff_and_first_violated (r : BoomerangRequest) :
    (validate r = .ok r ↔
      0 ≤ r.startTime ∧ 0 < r.duration ∧ 0 < r.speed ∧ 0 ≤ r.fadeDuration ∧
        r.fadeDuration < r.duration ∧ 0 ≤ r.crf ∧ r.crf ≤ 51) ∧
    validate r = (match firstViolatedCheck r with
      | none => .ok r
      | some e => .error e) := by
  refine ⟨validate_ok_iff r, ?_⟩
  unfold validate firstViolatedCheck
  simp only [not_le, not_lt, not_and_or, ge_iff_le, gt_iff_lt]
  split_ifs <;> rfl

/-- C6 counterexample: a request with `fadeDuration ≥ duration` whose
validation error is `NegativeStartTime`, not `FadeExceedsDuration`,
because the start-time check fires first. -/
theorem fade_exceeds_counterexample :
    (BoomerangRequest.mk (-1) 1 1 23 "medium" 2 false false).fadeDuration ≥
        (BoomerangRequest.mk (-1) 1 1 23 "medium" 2 false false).duration ∧
      validate (BoomerangRequest.mk (-1) 1 1 23 "medium" 2 false false) =
        .error .negativeStartTime ∧
      ValidationError.negativeStartTime ≠ ValidationError.fadeExceedsDuration := by
  refine ⟨by norm_num, by norm_num [validate], by decide⟩

/-- C6 amended: for every request with `fadeDuration ≥ duration`,
validation fails (so no plan is built); when additionally the three
earlier checks pass (`startTime ≥ 0`, `duration > 0`, `speed > 0`), the
error is `FadeExceedsDuration`. -/
theorem validate_fade_exceeds (r : BoomerangRequest)
    (h : r.fadeDuration ≥ r.duration) :
    (∃ e, validate r = .error e) ∧
      (0 ≤ r.startTime → 0 < r.duration → 0 < r.speed →
        validate r = .error .fadeExceedsDuration) := by
  constructor
  · unfold validate
    split_ifs with h1 h2 h3 h4
    any_goals exact ⟨_, rfl⟩
  · intro hs hd hsp
    unfold validate
    rw [if_neg (not_lt.mpr hs), if_neg (not_le.mpr hd), if_neg (not_le.mpr hsp),
      if_neg (not_lt.mpr (le_trans hd.le h)), if_pos h]

/-- C6 witness: the amended theorem applied to a concrete request with
`startTime = 0`, `duration = 1`, `speed = 1`, `fadeDuration = 2`. -/
theorem validate_fade_exceeds_witness :
    ((BoomerangRequest.mk 0 1 1 23 "medium" 2 false false).fadeDuration ≥
        (BoomerangRequest.mk 0 1 1 23 "medium" 2 false false).duration) ∧
      validate (BoomerangRequest.mk 0 1 1 23 "medium" 2 false false) =
        .error .fadeExceedsDuration :=
  ⟨by norm_num,
    (validate_fade_exceeds (BoomerangRequest.mk 0 1 1 23 "medium" 2 false false)
      (by norm_num)).2 (by norm_num) (by norm_num) (by norm_num)⟩

/-- C1: for every request that passes validation, the video join is
determined solely by `fadeDuration`: when it is 0 the forward and reversed
branches are joined by a plain concat (forward first, and the joined graph
contains no crossfade node); when it is positive the join is a crossfade
with duration `fadeDuration` and offset `duration - fadeDuration`. -/
theorem video_join_policy (r : BoomerangRequest) (h : validate r = .ok r) :
    (r.fadeDuration = 0 →
      joinedVideo r = .concat 1 0 (forwardVideo r) (reverseVideo r) ∧
        containsCrossfade (joinedVideo r) = false) ∧
    (0 < r.fadeDuration →
      joinedVideo r =
        .crossfade "fade" r.fadeDuration (r.duration - r.fadeDuration)
          (forwardVideo r) (reverseVideo r)) := by
  have hfd : r.fadeDuration < r.duration := ((validate_ok_iff r).mp h).2.2.2.2.1
  constructor
  · intro h0
    unfold joinedVideo
    rw [if_neg (by simp [h0])]
    exact ⟨rfl, rfl⟩
  · intro hpos
    unfold joinedVideo
    rw [if_pos ⟨hpos, hfd⟩]

/-- C1 witness: with `fadeDuration = 0` the join of a valid request is the
concat; with `duration = 3`, `fadeDuration = 3/10` it is the crossfade
with duration `3/10` and offset `3 - 3/10 = 27/10`. -/
theorem video_join_policy_witness :
    (joinedVideo (BoomerangRequest.mk 0 3 1 23 "medium" 0 false false) =
      .concat 1 0 (forwardVideo (BoomerangRequest.mk 0 3 1 23 "medium" 0 false false))
        (reverseVideo (BoomerangRequest.mk 0 3 1 23 "medium" 0 false false))) ∧
    ((3 : ℚ) - 3/10 = 27/10 ∧
      joinedVideo (BoomerangRequest.mk 0 3 1 23 "medium" (3/10) false false) =
        .crossfade "fade" (3/10) ((3 : ℚ) - 3/10)
          (forwardVideo (BoomerangRequest.mk 0 3 1 23 "medium" (3/10) false false))
          (reverseVideo (BoomerangRequest.mk 0 3 1 23 "medium" (3/10) false false))) :=
  ⟨((video_join_policy (BoomerangRequest.mk 0 3 1 23 "medium" 0 false false)
      (by norm_num [validate])).1 rfl).1,
    by norm_num,
    (video_join_policy (BoomerangRequest.mk 0 3 1 23 "medium" (3/10) false false)
      (by norm_num [validate])).2 (by norm_num)⟩

/-- C5: for every request that passes validation, the speed change
(`setpts` with factor `1/speed`) is the outermost (last) node of the video
chain, applied to the already-joined sequence; the join and both branches
contain no `setpts` node; and `speed = 2` yields factor `1/2`. -/
theorem setpts_is_last (r : BoomerangRequest) (_h : validate r = .ok r) :
    finalVideo r = .setpts (1 / r.speed) (joinedVideo r) ∧
      containsSetpts (joinedVideo r) = false ∧
      containsSetpts (forwardVideo r) = false ∧
      containsSetpts (reverseVideo r) = false ∧
      (r.speed = 2 → finalVideo r = .setpts (1/2) (joinedVideo r)) := by
  refine ⟨rfl, ?_, rfl, rfl, ?_⟩
  · unfold joinedVideo
    split_ifs <;> rfl
  · intro h2
    unfold finalVideo
    rw [h2]

/-- C5 witness: a valid request with `speed = 2` has the `setpts` node
with factor `1/2` outermost. -/
theorem setpts_is_last_witness :
    finalVideo (BoomerangRequest.mk 0 3 2 23 "medium" 0 false false) =
      .setpts (1/2)
        (joinedVideo (BoomerangRequest.mk 0 3 2 23 "medium" 0 false false)) :=
  (setpts_is_last (BoomerangRequest.mk 0 3 2 23 "medium" 0 false false)
    (by norm_num [validate])).2.2.2.2 rfl

/-- C9: for every request that passes validation with audio included, the
plan carries the audio chain, whose loop-join is the hard concat of the
forward and reversed audio branches, and the whole audio chain contains no
crossfade node — also when `fadeDuration > 0` (the hypotheses do not
restrict `fadeDuration`, and the witness uses a positive one). -/
theorem audio_join_is_concat (r : BoomerangRequest) (vc : String)
    (_h : validate r = .ok r) (ha : r.includeAudio = true) :
    (buildPlan r vc).audio = some (finalAudio r) ∧
      joinedAudio r = .concat 0 1 (forwardAudio r) (reverseAudio r) ∧
      containsCrossfade (finalAudio r) = false := by
  refine ⟨?_, rfl, ?_⟩
  · unfold buildPlan
    simp [ha]
  · unfold finalAudio
    split_ifs <;> rfl

/-- C9 witness: a valid request with audio and a positive `fadeDuration`
(so the video chain crossfades) still joins audio with a concat. -/
theorem audio_join_is_concat_witness :
    (buildPlan (BoomerangRequest.mk 0 3 1 23 "medium" (3/10) true false)
        "libx264").audio =
      some (finalAudio (BoomerangRequest.mk 0 3 1 23 "medium" (3/10) true false)) ∧
      containsCrossfade
        (finalAudio (BoomerangRequest.mk 0 3 1 23 "medium" (3/10) true false)) =
        false :=
  ⟨(audio_join_is_concat (BoomerangRequest.mk 0 3 1 23 "medium" (3/10) true false)
      "libx264" (by norm_num [validate]) rfl).1,
    (audio_join_is_concat (BoomerangRequest.mk 0 3 1 23 "medium" (3/10) true false)
      "libx264" (by norm_num [validate]) rfl).2.2⟩

/-- C10: for every request that passes validation with audio included, the
audio chain has no `atempo` node when `speed = 1`, and exactly one
`atempo` node — applied directly with the requested speed, with no
decomposition into stages — when `speed ≠ 1`.  Validation imposes no upper
bound on speed, so this includes speeds above 100 (the witness uses
`speed = 200`). -/
theorem audio_tempo_policy (r : BoomerangRequest) (_h : validate r = .ok r)
    (_ha : r.includeAudio = true) :
    (r.speed = 1 → countAtempo (finalAudio r) = 0) ∧
    (r.speed ≠ 1 →
      finalAudio r = .atempo r.speed (joinedAudio r) ∧
        countAtempo (finalAudio r) = 1) := by
  constructor
  · intro h1
    unfold finalAudio
    rw [if_neg (by simp [h1])]
    rfl
  · intro h1
    unfold finalAudio
    rw [if_pos h1]
    exact ⟨rfl, rfl⟩

/-- C10 witness: `speed = 200` passes validation (no upper bound) and
produces exactly one `atempo` node with factor 200; `speed = 1` produces
none. -/
theorem audio_tempo_policy_witness :
    (countAtempo (finalAudio (BoomerangRequest.mk 0 3 1 23 "medium" 0 true false)) = 0) ∧
      finalAudio (BoomerangRequest.mk 0 3 200 23 "medium" 0 true false) =
        .atempo 200 (joinedAudio (BoomerangRequest.mk 0 3 200 23 "medium" 0 true false)) ∧
      countAtempo (finalAudio (BoomerangRequest.mk 0 3 200 23 "medium" 0 true false)) = 1 :=
  ⟨(audio_tempo_policy (BoomerangRequest.mk 0 3 1 23 "medium" 0 true false)
      (by norm_num [validate]) rfl).1 rfl,
    (audio_tempo_policy (BoomerangRequest.mk 0 3 200 23 "medium" 0 true false)
      (by norm_num [validate]) rfl).2 (by norm_num)⟩

/-- C3: with GPU requested, Windows resolves exactly as Linux for every
probe outcome: exit code 0 (NVIDIA detected) chooses `h264_nvenc`, and
every other outcome — non-zero exit, missing binary, or timeout — chooses
`h264_qsv`. -/
theorem resolveEncoder_windows_eq_linux (p : ProbeOutcome) :
    resolveEncoder true .windows p = resolveEncoder true .linux p ∧
      (p = .ran 0 →
        (resolveEncoder true .windows p).1.codecId = "h264_nvenc") ∧
      (p ≠ .ran 0 →
        (resolveEncoder true .windows p).1.codecId = "h264_qsv") := by
  rcases p with rc | _ | _
  · refine ⟨rfl, ?_, ?_⟩
    · intro h
      injection h with h0
      subst h0
      rfl
    · intro h
      have hrc : rc ≠ 0 := by simpa using h
      simp [resolveEncoder, runProbe, hrc, HW_ACCEL_CODECS]
  · exact ⟨rfl, fun h => absurd h (by simp), fun _ => rfl⟩
  · exact ⟨rfl, fun h => absurd h (by simp), fun _ => rfl⟩

/-- C3 witness: the theorem at exit code 0 and at a timeout. -/
theorem resolveEncoder_windows_eq_linux_witness :
    (resolveEncoder true .windows (.ran 0)).1.codecId = "h264_nvenc" ∧
      (resolveEncoder true .windows .timedOut).1.codecId = "h264_qsv" :=
  ⟨(resolveEncoder_windows_eq_linux (.ran 0)).2.1 rfl,
    (resolveEncoder_windows_eq_linux .timedOut).2.2 (by simp)⟩

/-- C4: on the probing systems (Windows, Linux) no probe failure escapes
encoder resolution: a raising outcome (missing binary or timeout) or a
non-zero exit code yields the same codec and hardware flag as the
ran-with-exit-code-1 (vendor-not-detected) outcome, namely the `h264_qsv`
fallback (only the diagnostic line differs).  `resolveEncoder` is a total
function: the failure modes of `runProbe` are all absorbed by the
except-clauses it models, so no `ProbeError` appears in its result
type. -/
theorem resolveEncoder_probe_failure_absorbed (os : OsKind) (p : ProbeOutcome)
    (hos : os = .windows ∨ os = .linux)
    (hp : (∃ e, runProbe p = .error e) ∨ ∃ rc, rc ≠ 0 ∧ p = .ran rc) :
    (resolveEncoder true os p).1.codecId =
        (resolveEncoder true os (.ran 1)).1.codecId ∧
      (resolveEncoder true os p).1.isHardwareAccelerated =
        (resolveEncoder true os (.ran 1)).1.isHardwareAccelerated ∧
      (resolveEncoder true os p).1.codecId = "h264_qsv" := by
  rcases hos with rfl | rfl <;>
    rcases hp with ⟨e, he⟩ | ⟨rc, hrc, rfl⟩
  · rcases p with rc | _ | _
    · simp [runProbe] at he
    · exact ⟨rfl, rfl, rfl⟩
    · exact ⟨rfl, rfl, rfl⟩
  · simp [resolveEncoder, runProbe, hrc, HW_ACCEL_CODECS]
  · rcases p with rc | _ | _
    · simp [runProbe] at he
    · exact ⟨rfl, rfl, rfl⟩
    · exact ⟨rfl, rfl, rfl⟩
  · simp [resolveEncoder, runProbe, hrc, HW_ACCEL_CODECS]

/-- C4 witness: the theorem on Windows at a timeout, and on Linux at a
non-zero exit code. -/
theorem resolveEncoder_probe_failure_absorbed_witness :
    (resolveEncoder true .windows .timedOut).1.codecId = "h264_qsv" ∧
      (resolveEncoder true .linux (.ran 1)).1.codecId = "h264_qsv" :=
  ⟨(resolveEncoder_probe_failure_absorbed .windows .timedOut (Or.inl rfl)
      (Or.inl ⟨.timedOut, rfl⟩)).2.2,
    (resolveEncoder_probe_failure_absorbed .linux (.ran 1) (Or.inr rfl)
      (Or.inr ⟨1, one_ne_zero, rfl⟩)).2.2⟩

/-- C7: with GPU requested on macOS (Darwin), the resolution is a constant
independent of the probe outcome: codec `h264_videotoolbox`, hardware
accelerated, with zero probe invocations. -/
theorem resolveEncoder_macos (p : ProbeOutcome) :
    resolveEncoder true .darwin p =
      (⟨"h264_videotoolbox", true,
        "Detected macOS, attempting to use VideoToolbox."⟩, 0) :=
  rfl

/-- C8: with GPU not requested, every OS and probe outcome resolves to
`libx264`, not hardware accelerated, with zero probe invocations. -/
theorem resolveEncoder_no_gpu (os : OsKind) (p : ProbeOutcome) :
    resolveEncoder false os p = (⟨"libx264", false, ""⟩, 0) :=
  rfl

end Boomerang
